import Mathlib

/-!
Verification development for `src/models/cyclegan.py` (CycleGAN generator and
discriminator architectures built on TensorFlow/Keras).

The embedding has two levels.

* A configuration level (computable): `get_norm_layer`, `get_activation`,
  and the `__init__` wiring of `Downsample` and `Upsample`, including the
  `use_bias` computation and the error paths.  Python exceptions are embedded
  as `Except PyError`.

* A value level: tensors are embedded as a record carrying the spatial and
  channel extents together with a total valuation
  `batch → row → col → channel → ℝ`.  The batch dimension is never altered by
  any operation in this file, so the batch index is left unconstrained.
  Keras layer semantics (`Conv2D`, `tf.pad` with `REFLECT` mode,
  `ZeroPadding2D`, activations) are embedded from the TensorFlow documented
  behaviour; layers defined in the repository itself
  (`InstanceNormalization`, `ResNetBlock`, `Downsample`, `Upsample`,
  `Discriminator`, `ResNetGenerator`) are translated line by line from the
  source.
-/

namespace CycleGan

/-- Python exceptions that the module can raise.  `get_norm_layer` raises a
`ValueError`; the fallthrough branch of `get_activation` evaluates
`"...".format(norm_type)` where `norm_type` is not a name in scope, so Python
raises a `NameError` naming the unbound identifier before any `ValueError`
is constructed. -/
inductive PyError where
  | valueError (msg : String)
  | nameError (unboundName : String)
  deriving DecidableEq

/-- The two normalization layers `get_norm_layer` can return
(`BatchNormalization()` or `InstanceNormalization()`), as layer kinds. -/
inductive NormLayerK where
  | batchNormalization
  | instanceNormalization
  deriving DecidableEq

/-- The three activations `get_activation` can return: `ReLU()`,
`LeakyReLU(0.2)` (the slope recorded as a rational), or the `tanh`
function. -/
inductive ActivationK where
  | reLU
  | leakyReLU (slope : ℚ)
  | tanhAct
  deriving DecidableEq

/-- Decidable equality on `Except`, for evaluating the embedded functions
on concrete arguments. -/
instance {ε α : Type} [DecidableEq ε] [DecidableEq α] :
    DecidableEq (Except ε α) := fun x y =>
  match x, y with
  | .ok a, .ok b =>
      if h : a = b then .isTrue (h ▸ rfl)
      else .isFalse (fun hc => h (Except.ok.inj hc))
  | .error a, .error b =>
      if h : a = b then .isTrue (h ▸ rfl)
      else .isFalse (fun hc => h (Except.error.inj hc))
  | .ok _, .error _ => .isFalse (fun hc => Except.noConfusion hc)
  | .error _, .ok _ => .isFalse (fun hc => Except.noConfusion hc)

/-- Python `str.lower()` on the ASCII strings this module compares:
every character is lower-cased. -/
def pyLower (s : String) : String :=
  ⟨s.data.map Char.toLower⟩

/-- Truthiness of the Python value held by `norm_type`: it is either `None`
(embedded as `none`) or a string; `None` and the empty string are falsy,
every other string is truthy. -/
def pyTruthy : Option String → Bool
  | none => false
  | some s => s != ""

/-- The message of the `ValueError` raised by `get_norm_layer`
(lines 90-92): the three concatenated source fragments with
`"{}".format(norm_type)` appended, so the message ends with the supplied
value. -/
def normTypeErrMsg (norm_type : String) : String :=
  "arg `norm_type` has to be either batchnorm or instancenorm. What you specified is "
    ++ norm_type

/-- Lines 84-92: `get_norm_layer` lower-cases its argument, returns
`BatchNormalization()` for `"batchnorm"`, `InstanceNormalization()` for
`"instancenorm"`, and otherwise raises a `ValueError` mentioning the
supplied value. -/
def get_norm_layer (norm_type : String) : Except PyError NormLayerK :=
  if pyLower norm_type = "batchnorm" then
    .ok .batchNormalization
  else if pyLower norm_type = "instancenorm" then
    .ok .instanceNormalization
  else
    .error (.valueError (normTypeErrMsg norm_type))

/-- Lines 95-105: `get_activation` lower-cases its argument and returns
`ReLU()` for `"relu"`, `LeakyReLU(0.2)` for `"lrelu"` and `tanh` for
`"tanh"`.  The fallthrough branch executes
`raise ValueError("...".format(norm_type))`, but `norm_type` is not bound in
`get_activation` (it is a parameter of `get_norm_layer` only, and no module
level `norm_type` exists), so evaluating the message raises
`NameError: name norm_type is not defined` and no `ValueError` is ever
raised. -/
def get_activation (activation : String) : Except PyError ActivationK :=
  if pyLower activation = "relu" then
    .ok .reLU
  else if pyLower activation = "lrelu" then
    .ok (.leakyReLU (1 / 5))
  else if pyLower activation = "tanh" then
    .ok .tanhAct
  else
    .error (.nameError "norm_type")

/-- Configuration of a Keras `Conv2D` layer as created by the module:
filter count, square kernel size, stride, padding mode and whether a bias
vector is used. -/
structure Conv2DCfg where
  filters : ℕ
  size : ℕ
  strides : ℕ
  padding : String
  use_bias : Bool
  deriving DecidableEq

/-- Configuration of a Keras `Conv2DTranspose` layer as created by
`Upsample.__init__`. -/
structure Conv2DTransposeCfg where
  filters : ℕ
  size : ℕ
  strides : ℕ
  padding : String
  use_bias : Bool
  deriving DecidableEq

/-- The attributes a `Downsample` layer object holds after `__init__`
(lines 122-146): the stored `norm_type`, the normalization layer when one
was created, the configured convolution and the activation. -/
structure DownsampleCfg where
  norm_type : Option String
  norm_layer : Option NormLayerK
  conv2d : Conv2DCfg
  activation : ActivationK
  deriving DecidableEq

/-- The attributes an `Upsample` layer object holds after `__init__`
(lines 171-199): as for `Downsample`, plus `apply_dropout` and the dropout
layer (with rate `0.5`) when one was created. -/
structure UpsampleCfg where
  norm_type : Option String
  norm_layer : Option NormLayerK
  apply_dropout : Bool
  conv2dtranspose : Conv2DTransposeCfg
  dropout : Option ℚ
  activation : ActivationK
  deriving DecidableEq

/-- Lines 122-146, `Downsample.__init__`: `use_bias` starts `False`; when
`norm_type` is truthy a normalization layer is obtained from
`get_norm_layer`, otherwise `use_bias` is set to `True`; the convolution is
then created with that `use_bias`, and the activation from
`get_activation`.  Exceptions from `get_norm_layer` propagate before
`get_activation` runs. -/
def Downsample.init (filters size strides : ℕ) (padding : String)
    (norm_type : Option String) (activation : String) :
    Except PyError DownsampleCfg :=
  let normAndBias : Except PyError (Option NormLayerK × Bool) :=
    if pyTruthy norm_type then
      match get_norm_layer (norm_type.getD "") with
      | .ok nl => .ok (some nl, false)
      | .error e => .error e
    else
      .ok (none, true)
  match normAndBias, get_activation activation with
  | .ok nb, .ok act =>
      .ok ⟨norm_type, nb.1, ⟨filters, size, strides, padding, nb.2⟩, act⟩
  | .error e, _ => .error e
  | .ok _, .error e => .error e

/-- Lines 171-199, `Upsample.__init__`: same `use_bias` logic as
`Downsample.__init__`, then the transposed convolution is created with that
`use_bias`, a `Dropout(0.5)` layer is created exactly when `apply_dropout`
is `True`, and the activation comes from `get_activation`. -/
def Upsample.init (filters size strides : ℕ) (padding : String)
    (norm_type : Option String) (apply_dropout : Bool) (activation : String) :
    Except PyError UpsampleCfg :=
  let normAndBias : Except PyError (Option NormLayerK × Bool) :=
    if pyTruthy norm_type then
      match get_norm_layer (norm_type.getD "") with
      | .ok nl => .ok (some nl, false)
      | .error e => .error e
    else
      .ok (none, true)
  match normAndBias, get_activation activation with
  | .ok nb, .ok act =>
      .ok ⟨norm_type, nb.1, apply_dropout,
           ⟨filters, size, strides, padding, nb.2⟩,
           if apply_dropout then some (1 / 2) else none, act⟩
  | .error e, _ => .error e
  | .ok _, .error e => .error e

/-- A tensor value: spatial extents `hgt` and `wid`, channel extent `chn`,
and a total valuation indexed by batch, row, column and channel.  The batch
extent is not recorded because no operation in the module reads or changes
it. -/
structure Tensor where
  hgt : ℕ
  wid : ℕ
  chn : ℕ
  val : ℕ → ℕ → ℕ → ℕ → ℝ

/-- The source index that `tf.pad` with mode `"REFLECT"` and padding `p`
reads for output index `i` along a dimension of extent `n`: indices below
`p` mirror forward without repeating the edge, the middle band shifts by
`p`, and indices past the data mirror backward. -/
def reflectIndex (p n i : ℕ) : ℕ :=
  if i < p then p - i
  else if i < p + n then i - p
  else 2 * n - 2 + p - i

/-- `tf.pad(x, [[0, 0], [p, p], [p, p], [0, 0]], "REFLECT")`
(lines 74, 78, 435, 450): both spatial dimensions grow by `2 * p` and
values are read through `reflectIndex`. -/
def tfPadReflect (p : ℕ) (t : Tensor) : Tensor :=
  ⟨t.hgt + 2 * p, t.wid + 2 * p, t.chn, fun b i j c =>
    t.val b (reflectIndex p t.hgt i) (reflectIndex p t.wid j) c⟩

/-- Zero padding with separately chosen amounts on the four spatial sides
(top, bottom, left, right); used for `ZeroPadding2D` and for the implicit
padding of `"same"` convolutions. -/
def zeroPad2dAsym (pt pb pl pr : ℕ) (t : Tensor) : Tensor :=
  ⟨t.hgt + pt + pb, t.wid + pl + pr, t.chn, fun b i j c =>
    if pt ≤ i ∧ i < pt + t.hgt ∧ pl ≤ j ∧ j < pl + t.wid then
      t.val b (i - pt) (j - pl) c
    else 0⟩

/-- Keras `ZeroPadding2D()` with its default padding of one row and one
column on every side (lines 263, 271). -/
def zeroPadding2D (t : Tensor) : Tensor :=
  zeroPad2dAsym 1 1 1 1 t

/-- A `Conv2D` with `padding="valid"`, square kernel `k`, stride `s`,
kernel weights `K` (indexed kernel-row, kernel-column, input-channel,
filter) and bias `bias`: each output position is the dot product of the
kernel with the window whose top-left corner is at `(i * s, j * s)`.  The
output extent is `(n - k) / s + 1` per the TensorFlow valid-padding rule. -/
def conv2dValid (filters k s : ℕ) (K : ℕ → ℕ → ℕ → ℕ → ℝ) (bias : ℕ → ℝ)
    (t : Tensor) : Tensor :=
  ⟨(t.hgt - k) / s + 1, (t.wid - k) / s + 1, filters, fun b i j f =>
    (∑ di ∈ Finset.range k, ∑ dj ∈ Finset.range k, ∑ c ∈ Finset.range t.chn,
      t.val b (i * s + di) (j * s + dj) c * K di dj c f) + bias f⟩

/-- Total implicit zero padding a `"same"` convolution adds along a
dimension of extent `n` for kernel `k` and stride `s`:
`max ((ceil (n / s) - 1) * s + k - n) 0`, with the subtraction clamped by
`ℕ`. -/
def samePadTotal (n k s : ℕ) : ℕ :=
  ((n + s - 1) / s - 1) * s + k - n

/-- The part of `samePadTotal` placed before the data (TensorFlow puts the
smaller half on top/left). -/
def samePadLo (n k s : ℕ) : ℕ :=
  samePadTotal n k s / 2

/-- A `Conv2D` with `padding="same"`: zero-pad each spatial dimension by
`samePadTotal`, split as `samePadLo` before and the rest after, then run
the valid convolution.  The output extent is `ceil (n / s)`. -/
def conv2dSame (filters k s : ℕ) (K : ℕ → ℕ → ℕ → ℕ → ℝ) (bias : ℕ → ℝ)
    (t : Tensor) : Tensor :=
  conv2dValid filters k s K bias
    (zeroPad2dAsym (samePadLo t.hgt k s) (samePadTotal t.hgt k s - samePadLo t.hgt k s)
      (samePadLo t.wid k s) (samePadTotal t.wid k s - samePadLo t.wid k s) t)

/-- The `Conv2D` layers of the module, dispatched on the `padding`
argument, which in this module is always the string `"same"` or
`"valid"`. -/
def mkConv2D (filters k s : ℕ) (padding : String) (K : ℕ → ℕ → ℕ → ℕ → ℝ)
    (bias : ℕ → ℝ) (t : Tensor) : Tensor :=
  if padding = "same" then conv2dSame filters k s K bias t
  else conv2dValid filters k s K bias t

/-- A `Conv2DTranspose` with `padding="same"` and stride `s`: the adjoint
of the same-padding forward convolution from extent `n * s` down to `n`,
whose implicit before-padding is `(k - s) / 2` (clamped).  Output position
`r` collects every kernel tap `di` for which `r + pb - di` is a multiple of
`s` landing inside the input.  The output extent is `n * s`. -/
def conv2dTransposeSame (filters k s : ℕ) (K : ℕ → ℕ → ℕ → ℕ → ℝ)
    (bias : ℕ → ℝ) (t : Tensor) : Tensor :=
  let pb := (k - s) / 2
  ⟨t.hgt * s, t.wid * s, filters, fun b r u f =>
    (∑ di ∈ Finset.range k, ∑ dj ∈ Finset.range k, ∑ c ∈ Finset.range t.chn,
      (if di ≤ r + pb ∧ (r + pb - di) % s = 0 ∧ (r + pb - di) / s < t.hgt ∧
          dj ≤ u + pb ∧ (u + pb - dj) % s = 0 ∧ (u + pb - dj) / s < t.wid then
        t.val b ((r + pb - di) / s) ((u + pb - dj) / s) c
      else 0) * K di dj c f) + bias f⟩

/-- Pointwise application of a scalar function, preserving extents; used
for the activation layers. -/
def tmap (f : ℝ → ℝ) (t : Tensor) : Tensor :=
  ⟨t.hgt, t.wid, t.chn, fun b i j c => f (t.val b i j c)⟩

/-- The Keras `ReLU()` layer: pointwise `max v 0`. -/
noncomputable def reluT (t : Tensor) : Tensor :=
  tmap (fun v => max v 0) t

/-- The Keras `LeakyReLU(alpha)` layer: the identity on nonnegative inputs
and multiplication by the slope on negative ones. -/
noncomputable def leakyReluT (alpha : ℝ) (t : Tensor) : Tensor :=
  tmap (fun v => if v < 0 then alpha * v else v) t

/-- The `tanh` activation from `tensorflow.keras.activations`, applied
pointwise. -/
noncomputable def tanhT (t : Tensor) : Tensor :=
  tmap Real.tanh t

/-- `tf.math.rsqrt`: the reciprocal square root. -/
noncomputable def rsqrt (y : ℝ) : ℝ :=
  (Real.sqrt y)⁻¹

/-- The first component of `tf.nn.moments(x, axes=[1, 2])`: for each batch
index and channel, the mean of the values over the two spatial axes.
(`keepdims=True` only affects the broadcast shape, which the valuation
model renders irrelevant.) -/
noncomputable def tfMean (t : Tensor) (b c : ℕ) : ℝ :=
  (∑ i ∈ Finset.range t.hgt, ∑ j ∈ Finset.range t.wid, t.val b i j c) /
    (t.hgt * t.wid)

/-- The second component of `tf.nn.moments(x, axes=[1, 2])`: for each batch
index and channel, the (biased) variance of the values over the two spatial
axes. -/
noncomputable def tfVariance (t : Tensor) (b c : ℕ) : ℝ :=
  (∑ i ∈ Finset.range t.hgt, ∑ j ∈ Finset.range t.wid,
      (t.val b i j c - tfMean t b c) ^ 2) / (t.hgt * t.wid)

/-- The `InstanceNormalization` layer defined at lines 11-38: `epsilon`
from `__init__`, and the `scale` and `offset` weights that `build` creates
with shape `input_shape[-1:]`, i.e. indexed by the channel alone. -/
structure InstanceNormalization where
  epsilon : ℝ
  scale : ℕ → ℝ
  offset : ℕ → ℝ

/-- Lines 34-38, `InstanceNormalization.call`: moments over axes 1 and 2,
`inv = rsqrt (variance + epsilon)`, and the result
`scale * ((x - mean) * inv) + offset`. -/
noncomputable def InstanceNormalization.call (l : InstanceNormalization)
    (x : Tensor) : Tensor :=
  ⟨x.hgt, x.wid, x.chn, fun b i j c =>
    l.scale c * ((x.val b i j c - tfMean x b c) * rsqrt (tfVariance x b c + l.epsilon))
      + l.offset c⟩

/-- A `ResNetBlock` layer object (lines 41-68): the stored `size`, the
configuration shared by its two convolutions (`filters`, `strides`,
`padding`, both with `use_bias=False`), their kernels, and the two
`InstanceNormalization` sublayers.  The `ReLU()` sublayer carries no
state. -/
structure ResNetBlock where
  filters : ℕ
  size : ℕ
  strides : ℕ
  padding : String
  K1 : ℕ → ℕ → ℕ → ℕ → ℝ
  K2 : ℕ → ℕ → ℕ → ℕ → ℝ
  instance_norm_1 : InstanceNormalization
  instance_norm_2 : InstanceNormalization

/-- Lines 71-81, `ResNetBlock.call`: `pad = int((size - 1) / 2)`, then
reflection padding, first convolution (bias-free), instance norm, ReLU,
reflection padding again, second convolution (bias-free), instance norm,
and finally the residual sum `x + inputs`. -/
noncomputable def ResNetBlock.call (l : ResNetBlock) (inputs : Tensor) : Tensor :=
  let pad := (l.size - 1) / 2
  let x := tfPadReflect pad inputs
  let x := mkConv2D l.filters l.size l.strides l.padding l.K1 (fun _ => 0) x
  let x := l.instance_norm_1.call x
  let x := reluT x
  let x := tfPadReflect pad x
  let x := mkConv2D l.filters l.size l.strides l.padding l.K2 (fun _ => 0) x
  let x := l.instance_norm_2.call x
  ⟨x.hgt, x.wid, x.chn, fun b i j c => x.val b i j c + inputs.val b i j c⟩

/-- A `Downsample` layer object as it exists after `__init__`: the stored
`norm_type` and the denotations of its `conv2d`, `norm_layer` and
`activation` sublayers.  In Python the `norm_layer` attribute only exists
when `norm_type` is truthy; here the field is simply never read in that
case. -/
structure Downsample where
  norm_type : Option String
  conv2d : Tensor → Tensor
  norm_layer : Tensor → Tensor
  activation : Tensor → Tensor

/-- Lines 148-154, `Downsample.call`: convolution, then the normalization
layer guarded by the truthiness of `norm_type`, then the activation. -/
def Downsample.call (l : Downsample) (inputs : Tensor) : Tensor :=
  let x := l.conv2d inputs
  let x := if pyTruthy l.norm_type then l.norm_layer x else x
  l.activation x

/-- An `Upsample` layer object as it exists after `__init__`: the stored
`norm_type` and `apply_dropout` flags and the denotations of its sublayers.
As with `Downsample`, the `norm_layer` and `dropout` fields are never read
when the corresponding flag is falsy. -/
structure Upsample where
  norm_type : Option String
  apply_dropout : Bool
  conv2dtranspose : Tensor → Tensor
  norm_layer : Tensor → Tensor
  dropout : Tensor → Tensor
  activation : Tensor → Tensor

/-- Lines 201-209, `Upsample.call`: transposed convolution, then the
normalization layer guarded by the truthiness of `norm_type`, then the
dropout layer guarded by `apply_dropout`, then the activation. -/
def Upsample.call (l : Upsample) (inputs : Tensor) : Tensor :=
  let x := l.conv2dtranspose inputs
  let x := if pyTruthy l.norm_type then l.norm_layer x else x
  let x := if l.apply_dropout then l.dropout x else x
  l.activation x

/-- Kernel and bias weights of one convolution layer. -/
structure ConvW where
  K : ℕ → ℕ → ℕ → ℕ → ℝ
  b : ℕ → ℝ

/-- The `scale` and `offset` weights of one `InstanceNormalization`
layer. -/
structure InW where
  scale : ℕ → ℝ
  offset : ℕ → ℝ

/-- Weights of one `Downsample` or `Upsample` stage: its convolution and
its instance normalization. -/
structure StageW where
  cw : ConvW
  nw : InW

/-- Weights of one `ResNetBlock`: the two kernels and the two instance
normalizations. -/
structure RbW where
  K1 : ℕ → ℕ → ℕ → ℕ → ℝ
  K2 : ℕ → ℕ → ℕ → ℕ → ℝ
  n1 : InW
  n2 : InW

/-- An `InstanceNormalization()` created with its default
`epsilon = 1e-5`, as `get_norm_layer "instancenorm"` produces inside the
`Downsample` and `Upsample` stages. -/
noncomputable def defaultInstanceNorm (w : InW) : InstanceNormalization :=
  ⟨1 / 100000, w.scale, w.offset⟩

/-- All weights of a `ResNetGenerator`. -/
structure GenW where
  d1 : StageW
  d2 : StageW
  d3 : StageW
  r1 : RbW
  r2 : RbW
  r3 : RbW
  r4 : RbW
  r5 : RbW
  r6 : RbW
  r7 : RbW
  r8 : RbW
  r9 : RbW
  u1 : StageW
  u2 : StageW
  lastW : ConvW

/-- A `ResNetGenerator` model object (lines 353-431): three `Downsample`
stages, nine `ResNetBlock`s, two `Upsample` stages, and the configuration
of `last_conv2d` (`Conv2D(output_channels, 7, 1, padding="valid",
activation="tanh")`, with its default `use_bias=True`). -/
structure ResNetGenerator where
  downsample_1 : Downsample
  downsample_2 : Downsample
  downsample_3 : Downsample
  resnetblock_1 : ResNetBlock
  resnetblock_2 : ResNetBlock
  resnetblock_3 : ResNetBlock
  resnetblock_4 : ResNetBlock
  resnetblock_5 : ResNetBlock
  resnetblock_6 : ResNetBlock
  resnetblock_7 : ResNetBlock
  resnetblock_8 : ResNetBlock
  resnetblock_9 : ResNetBlock
  upsample_1 : Upsample
  upsample_2 : Upsample
  output_channels : ℕ
  lastK : ℕ → ℕ → ℕ → ℕ → ℝ
  lastB : ℕ → ℝ

/-- The `last_conv2d` attribute (lines 426-431): a valid-padding 7×7
stride-1 convolution to `output_channels` filters whose Keras `activation`
argument is `"tanh"`, so `tanh` is applied to the convolution output. -/
noncomputable def ResNetGenerator.last_conv2d (g : ResNetGenerator)
    (t : Tensor) : Tensor :=
  tanhT (mkConv2D g.output_channels 7 1 "valid" g.lastK g.lastB t)

/-- One `ResNetBlock(first_filters * 4)` as created at lines 405-413, with
its default `size=3`, `strides=1`, `padding="valid"`. -/
noncomputable def mkResNetBlock (filters : ℕ) (w : RbW) : ResNetBlock :=
  ⟨filters, 3, 1, "valid", w.K1, w.K2,
    defaultInstanceNorm w.n1, defaultInstanceNorm w.n2⟩

/-- Lines 380-431, `ResNetGenerator.__init__`, at the literal
arguments.  Every stage passes `norm_type="instancenorm"`, for which
`get_norm_layer` returns an `InstanceNormalization()` (see
`get_norm_layer`), so `use_bias=False` and the convolution of each stage is
bias-free.  `downsample_1` is `Downsample(first_filters, 7, strides=1,
padding="valid")` with the `Downsample` defaults `activation="lrelu"`
(slope `0.2`); `downsample_2` and `downsample_3` use kernel 3, stride 2 and
the default `padding="same"`; the upsample stages are
`Upsample(_, 3, 2, padding="same")` with the `Upsample` defaults
`apply_dropout=False` and `activation="relu"` (the unread `dropout` field
is set to the identity). -/
noncomputable def ResNetGenerator.init (first_filters output_channels : ℕ)
    (W : GenW) : ResNetGenerator where
  downsample_1 :=
    ⟨some "instancenorm", mkConv2D first_filters 7 1 "valid" W.d1.cw.K (fun _ => 0),
      (defaultInstanceNorm W.d1.nw).call, leakyReluT (1 / 5)⟩
  downsample_2 :=
    ⟨some "instancenorm", mkConv2D (first_filters * 2) 3 2 "same" W.d2.cw.K (fun _ => 0),
      (defaultInstanceNorm W.d2.nw).call, leakyReluT (1 / 5)⟩
  downsample_3 :=
    ⟨some "instancenorm", mkConv2D (first_filters * 4) 3 2 "same" W.d3.cw.K (fun _ => 0),
      (defaultInstanceNorm W.d3.nw).call, leakyReluT (1 / 5)⟩
  resnetblock_1 := mkResNetBlock (first_filters * 4) W.r1
  resnetblock_2 := mkResNetBlock (first_filters * 4) W.r2
  resnetblock_3 := mkResNetBlock (first_filters * 4) W.r3
  resnetblock_4 := mkResNetBlock (first_filters * 4) W.r4
  resnetblock_5 := mkResNetBlock (first_filters * 4) W.r5
  resnetblock_6 := mkResNetBlock (first_filters * 4) W.r6
  resnetblock_7 := mkResNetBlock (first_filters * 4) W.r7
  resnetblock_8 := mkResNetBlock (first_filters * 4) W.r8
  resnetblock_9 := mkResNetBlock (first_filters * 4) W.r9
  upsample_1 :=
    ⟨some "instancenorm", false,
      conv2dTransposeSame (first_filters * 2) 3 2 W.u1.cw.K (fun _ => 0),
      (defaultInstanceNorm W.u1.nw).call, id, reluT⟩
  upsample_2 :=
    ⟨some "instancenorm", false,
      conv2dTransposeSame first_filters 3 2 W.u2.cw.K (fun _ => 0),
      (defaultInstanceNorm W.u2.nw).call, id, reluT⟩
  output_channels := output_channels
  lastK := W.lastW.K
  lastB := W.lastW.b

/-- Lines 433-453, `ResNetGenerator.call`: reflection padding by 3, the
three downsample stages, the nine residual blocks, the two upsample
stages, reflection padding by 3 again, and `last_conv2d`. -/
noncomputable def ResNetGenerator.call (g : ResNetGenerator) (inputs : Tensor) :
    Tensor :=
  let x := tfPadReflect 3 inputs
  let x := g.downsample_1.call x
  let x := g.downsample_2.call x
  let x := g.downsample_3.call x
  let x := g.resnetblock_1.call x
  let x := g.resnetblock_2.call x
  let x := g.resnetblock_3.call x
  let x := g.resnetblock_4.call x
  let x := g.resnetblock_5.call x
  let x := g.resnetblock_6.call x
  let x := g.resnetblock_7.call x
  let x := g.resnetblock_8.call x
  let x := g.resnetblock_9.call x
  let x := g.upsample_1.call x
  let x := g.upsample_2.call x
  let x := tfPadReflect 3 x
  g.last_conv2d x

/-- All weights of a `Discriminator`: the first downsample stage carries a
bias (its `norm_type` is `None`) and no normalization weights, the final
convolution also carries its bias. -/
structure DiscW where
  d1 : ConvW
  d2 : StageW
  d3 : StageW
  d4 : StageW
  lastW : ConvW

/-- A `Discriminator` model object (lines 212-276): four `Downsample`
stages, two `ZeroPadding2D` layers, and the final
`Conv2D(1, size, strides=1, padding="valid")` (default `use_bias=True`, no
activation). -/
structure Discriminator where
  downsample_1 : Downsample
  downsample_2 : Downsample
  downsample_3 : Downsample
  downsample_4 : Downsample
  zeropadding2d_1 : Tensor → Tensor
  zeropadding2d_2 : Tensor → Tensor
  conv2d : Tensor → Tensor

/-- Lines 232-276, `Discriminator.__init__`, at its default
`norm_type="instancenorm"`: `downsample_1` has `norm_type=None`, so its
convolution keeps a bias and no normalization layer exists (the unread
`norm_layer` field is set to the identity); stages 2-4 use instance
normalization with bias-free convolutions; all four use `activation="lrelu"`
(slope `0.2`); stages 1-3 have stride 2 and `padding="same"`, stage 4 has
stride 1 and `padding="valid"`. -/
noncomputable def Discriminator.init (first_filters size : ℕ) (W : DiscW) :
    Discriminator where
  downsample_1 :=
    ⟨none, mkConv2D first_filters size 2 "same" W.d1.K W.d1.b, id, leakyReluT (1 / 5)⟩
  downsample_2 :=
    ⟨some "instancenorm", mkConv2D (first_filters * 2) size 2 "same" W.d2.cw.K (fun _ => 0),
      (defaultInstanceNorm W.d2.nw).call, leakyReluT (1 / 5)⟩
  downsample_3 :=
    ⟨some "instancenorm", mkConv2D (first_filters * 4) size 2 "same" W.d3.cw.K (fun _ => 0),
      (defaultInstanceNorm W.d3.nw).call, leakyReluT (1 / 5)⟩
  downsample_4 :=
    ⟨some "instancenorm", mkConv2D (first_filters * 8) size 1 "valid" W.d4.cw.K (fun _ => 0),
      (defaultInstanceNorm W.d4.nw).call, leakyReluT (1 / 5)⟩
  zeropadding2d_1 := zeroPadding2D
  zeropadding2d_2 := zeroPadding2D
  conv2d := mkConv2D 1 size 1 "valid" W.lastW.K W.lastW.b

/-- Lines 278-288, `Discriminator.call`: three downsample stages, zero
padding, the fourth downsample stage, zero padding again, and the final
convolution. -/
noncomputable def Discriminator.call (d : Discriminator) (inputs : Tensor) :
    Tensor :=
  let x := d.downsample_1.call inputs
  let x := d.downsample_2.call x
  let x := d.downsample_3.call x
  let x := d.zeropadding2d_1 x
  let x := d.downsample_4.call x
  let x := d.zeropadding2d_2 x
  d.conv2d x

/-- Line 8: `INPUT_SHAPE = (256, 256, 3)`. -/
def INPUT_SHAPE : ℕ × ℕ × ℕ := (256, 256, 3)

/-- The residual branch of a `ResNetBlock` as the specification describes
it: two valid convolutions, each preceded by reflection padding of
`(size - 1) / 2` and each followed by instance normalization, with a ReLU
between the two. -/
noncomputable def resnetBranchSpec (l : ResNetBlock) (x : Tensor) : Tensor :=
  l.instance_norm_2.call
    (conv2dValid l.filters l.size l.strides l.K2 (fun _ => 0)
      (tfPadReflect ((l.size - 1) / 2)
        (reluT
          (l.instance_norm_1.call
            (conv2dValid l.filters l.size l.strides l.K1 (fun _ => 0)
              (tfPadReflect ((l.size - 1) / 2) x))))))

/-- The pointwise residual sum `a + b` read off `x + inputs` at line 81
(shapes taken from the left operand, as in the addition the code
performs on equal-shaped tensors). -/
def Tensor.add (a b : Tensor) : Tensor :=
  ⟨a.hgt, a.wid, a.chn, fun bb i j c => a.val bb i j c + b.val bb i j c⟩

/-- The discriminator pipeline exactly as the specification sentence orders
it: the four downsample stages consecutively, then one zero padding, then
the final convolution. -/
noncomputable def Discriminator.claimedCall (d : Discriminator) (x : Tensor) :
    Tensor :=
  d.conv2d
    (d.zeropadding2d_1
      (d.downsample_4.call
        (d.downsample_3.call (d.downsample_2.call (d.downsample_1.call x)))))

/-- An all-zero convolution weight bundle, for concrete instantiations. -/
noncomputable def zeroConvW : ConvW :=
  ⟨fun _ _ _ _ => 0, fun _ => 0⟩

/-- An all-zero instance-normalization weight bundle. -/
noncomputable def zeroInW : InW :=
  ⟨fun _ => 0, fun _ => 0⟩

/-- An all-zero stage weight bundle. -/
noncomputable def zeroStageW : StageW :=
  ⟨zeroConvW, zeroInW⟩

/-- An all-zero residual-block weight bundle. -/
noncomputable def zeroRbW : RbW :=
  ⟨fun _ _ _ _ => 0, fun _ _ _ _ => 0, zeroInW, zeroInW⟩

/-- An all-zero discriminator weight bundle. -/
noncomputable def zeroDiscW : DiscW :=
  ⟨zeroConvW, zeroStageW, zeroStageW, zeroStageW, zeroConvW⟩

/-- The discriminator built with the module defaults
(`first_filters=64`, `size=4`) and zero weights. -/
noncomputable def disc0 : Discriminator :=
  Discriminator.init 64 4 zeroDiscW

/-- An all-zero input image of the fixed pipeline shape 256×256×3. -/
noncomputable def img0 : Tensor :=
  ⟨256, 256, 3, fun _ _ _ _ => 0⟩

/-- The generator built with the module default arguments
(`first_filters=64`, `output_channels=3`). -/
noncomputable def gen64 (W : GenW) : ResNetGenerator :=
  ResNetGenerator.init 64 3 W

/-- An input tensor of the fixed pipeline `INPUT_SHAPE`, with an
arbitrary valuation. -/
noncomputable def inputOf (v : ℕ → ℕ → ℕ → ℕ → ℝ) : Tensor :=
  ⟨INPUT_SHAPE.1, INPUT_SHAPE.2.1, INPUT_SHAPE.2.2, v⟩

/-- The activations of the default generator after its first downsample stage
(which consumes the initial reflection padding). -/
noncomputable def genStageDs1 (W : GenW) (v : ℕ → ℕ → ℕ → ℕ → ℝ) : Tensor :=
  (gen64 W).downsample_1.call (tfPadReflect 3 (inputOf v))

/-- ... after the second downsample stage. -/
noncomputable def genStageDs2 (W : GenW) (v : ℕ → ℕ → ℕ → ℕ → ℝ) : Tensor :=
  (gen64 W).downsample_2.call (genStageDs1 W v)

/-- ... after the third downsample stage. -/
noncomputable def genStageDs3 (W : GenW) (v : ℕ → ℕ → ℕ → ℕ → ℝ) : Tensor :=
  (gen64 W).downsample_3.call (genStageDs2 W v)

/-- ... after the nine residual blocks. -/
noncomputable def genStageRes (W : GenW) (v : ℕ → ℕ → ℕ → ℕ → ℝ) : Tensor :=
  (gen64 W).resnetblock_9.call ((gen64 W).resnetblock_8.call
    ((gen64 W).resnetblock_7.call ((gen64 W).resnetblock_6.call
      ((gen64 W).resnetblock_5.call ((gen64 W).resnetblock_4.call
        ((gen64 W).resnetblock_3.call ((gen64 W).resnetblock_2.call
          ((gen64 W).resnetblock_1.call (genStageDs3 W v)))))))))

/-- ... after the first upsample stage. -/
noncomputable def genStageUp1 (W : GenW) (v : ℕ → ℕ → ℕ → ℕ → ℝ) : Tensor :=
  (gen64 W).upsample_1.call (genStageRes W v)

/-- ... after the second upsample stage. -/
noncomputable def genStageUp2 (W : GenW) (v : ℕ → ℕ → ℕ → ℕ → ℝ) : Tensor :=
  (gen64 W).upsample_2.call (genStageUp1 W v)

/-- A concrete `ResNetBlock` (4 filters, zero weights, hence the default
`padding="valid"`). -/
noncomputable def rb0 : ResNetBlock :=
  mkResNetBlock 4 zeroRbW

/-- A small concrete tensor. -/
noncomputable def t0 : Tensor :=
  ⟨4, 4, 1, fun _ _ _ _ => 0⟩

/-- A concrete `Downsample` object whose `norm_type` is `None` (as
`Discriminator.__init__` creates for its first stage), with identity
sublayers. -/
def dsNone0 : Downsample :=
  ⟨none, id, id, id⟩

/-- A concrete `Downsample` object whose `norm_type` is the non-empty
string `"instancenorm"`, with identity sublayers. -/
def dsIN0 : Downsample :=
  ⟨some "instancenorm", id, id, id⟩

/-- A concrete `Upsample` object with falsy `norm_type` and
`apply_dropout=False`, with identity sublayers. -/
def upNone0 : Upsample :=
  ⟨none, false, id, id, id, id⟩

/-- A concrete `Upsample` object with truthy `norm_type` and
`apply_dropout=True`, with identity sublayers. -/
def upIN0 : Upsample :=
  ⟨some "instancenorm", true, id, id, id, id⟩

/-- The `DownsampleCfg` that `Downsample.init 64 4 2 "same" none "lrelu"`
produces: no normalization layer and a biased convolution. -/
def dcfg0 : DownsampleCfg :=
  ⟨none, none, ⟨64, 4, 2, "same", true⟩, .leakyReLU (1 / 5)⟩

/-- The `UpsampleCfg` that
`Upsample.init 64 4 2 "same" none false "lrelu"` produces. -/
def ucfg0 : UpsampleCfg :=
  ⟨none, none, false, ⟨64, 4, 2, "same", true⟩, none, .leakyReLU (1 / 5)⟩

@[simp] theorem tfPadReflect_hgt (p : ℕ) (t : Tensor) :
    (tfPadReflect p t).hgt = t.hgt + 2 * p := rfl

@[simp] theorem tfPadReflect_wid (p : ℕ) (t : Tensor) :
    (tfPadReflect p t).wid = t.wid + 2 * p := rfl

@[simp] theorem tfPadReflect_chn (p : ℕ) (t : Tensor) :
    (tfPadReflect p t).chn = t.chn := rfl

@[simp] theorem zeroPad2dAsym_hgt (pt pb pl pr : ℕ) (t : Tensor) :
    (zeroPad2dAsym pt pb pl pr t).hgt = t.hgt + pt + pb := rfl

@[simp] theorem zeroPad2dAsym_wid (pt pb pl pr : ℕ) (t : Tensor) :
    (zeroPad2dAsym pt pb pl pr t).wid = t.wid + pl + pr := rfl

@[simp] theorem zeroPad2dAsym_chn (pt pb pl pr : ℕ) (t : Tensor) :
    (zeroPad2dAsym pt pb pl pr t).chn = t.chn := rfl

@[simp] theorem conv2dValid_hgt (f k s : ℕ) (K : ℕ → ℕ → ℕ → ℕ → ℝ)
    (bias : ℕ → ℝ) (t : Tensor) :
    (conv2dValid f k s K bias t).hgt = (t.hgt - k) / s + 1 := rfl

@[simp] theorem conv2dValid_wid (f k s : ℕ) (K : ℕ → ℕ → ℕ → ℕ → ℝ)
    (bias : ℕ → ℝ) (t : Tensor) :
    (conv2dValid f k s K bias t).wid = (t.wid - k) / s + 1 := rfl

@[simp] theorem conv2dValid_chn (f k s : ℕ) (K : ℕ → ℕ → ℕ → ℕ → ℝ)
    (bias : ℕ → ℝ) (t : Tensor) :
    (conv2dValid f k s K bias t).chn = f := rfl

@[simp] theorem conv2dTransposeSame_hgt (f k s : ℕ) (K : ℕ → ℕ → ℕ → ℕ → ℝ)
    (bias : ℕ → ℝ) (t : Tensor) :
    (conv2dTransposeSame f k s K bias t).hgt = t.hgt * s := rfl

@[simp] theorem conv2dTransposeSame_wid (f k s : ℕ) (K : ℕ → ℕ → ℕ → ℕ → ℝ)
    (bias : ℕ → ℝ) (t : Tensor) :
    (conv2dTransposeSame f k s K bias t).wid = t.wid * s := rfl

@[simp] theorem conv2dTransposeSame_chn (f k s : ℕ) (K : ℕ → ℕ → ℕ → ℕ → ℝ)
    (bias : ℕ → ℝ) (t : Tensor) :
    (conv2dTransposeSame f k s K bias t).chn = f := rfl

@[simp] theorem tmap_hgt (f : ℝ → ℝ) (t : Tensor) : (tmap f t).hgt = t.hgt := rfl

@[simp] theorem tmap_wid (f : ℝ → ℝ) (t : Tensor) : (tmap f t).wid = t.wid := rfl

@[simp] theorem tmap_chn (f : ℝ → ℝ) (t : Tensor) : (tmap f t).chn = t.chn := rfl

@[simp] theorem instanceNorm_call_hgt (l : InstanceNormalization) (x : Tensor) :
    (l.call x).hgt = x.hgt := rfl

@[simp] theorem instanceNorm_call_wid (l : InstanceNormalization) (x : Tensor) :
    (l.call x).wid = x.wid := rfl

@[simp] theorem instanceNorm_call_chn (l : InstanceNormalization) (x : Tensor) :
    (l.call x).chn = x.chn := rfl

@[simp] theorem pyTruthy_instancenorm : pyTruthy (some "instancenorm") = true := by
  decide

@[simp] theorem pyTruthy_none : pyTruthy none = false := rfl

theorem abs_tanh_le_one (y : ℝ) : |Real.tanh y| ≤ 1 := by
  rw [Real.tanh_eq_sinh_div_cosh, abs_div, abs_of_pos (Real.cosh_pos y),
    div_le_one (Real.cosh_pos y)]
  refine abs_le.mpr ⟨?_, (Real.sinh_lt_cosh y).le⟩
  have h := Real.sinh_lt_cosh (-y)
  rw [Real.sinh_neg, Real.cosh_neg] at h
  linarith

/-- Claim C3: for every input tensor `x`, `ResNetBlock.call` (at its
default `padding="valid"`, the only padding the module ever uses for a
residual block) returns `F(x) + x`, where `F` is the composition of two
convolutions, each preceded by reflection padding of `(size - 1) / 2` on
the spatial dimensions and each followed by instance normalization, with a
ReLU between the two convolutions: the block adds the unmodified input to
the branch output. -/
theorem resnet_block_residual (l : ResNetBlock) (x : Tensor)
    (hpad : l.padding = "valid") :
    l.call x = Tensor.add (resnetBranchSpec l x) x := by
  simp [ResNetBlock.call, resnetBranchSpec, mkConv2D, hpad, Tensor.add]

theorem resnet_block_residual_witness :
    rb0.call t0 = Tensor.add (resnetBranchSpec rb0 t0) t0 :=
  resnet_block_residual rb0 t0 rfl

/-- Claim C4: for every input tensor `x`, `InstanceNormalization.call`
normalizes per channel over the spatial dimensions only: `tfMean` and
`tfVariance` are the moments over axes 1 and 2 (height and width; they are
functions of the batch and channel indices alone, each value a reduction
over the two spatial axes), and the result is
`scale * (x - mean) / sqrt (variance + epsilon) + offset`, the `scale` and
`offset` weights being indexed by the channel alone. -/
theorem instance_norm_formula (l : InstanceNormalization) (x : Tensor) :
    l.call x =
      ⟨x.hgt, x.wid, x.chn, fun b i j c =>
        l.scale c * (x.val b i j c - tfMean x b c) /
          Real.sqrt (tfVariance x b c + l.epsilon) + l.offset c⟩ := by
  unfold InstanceNormalization.call rsqrt
  congr 1
  funext b i j c
  rw [div_eq_mul_inv, mul_assoc]

/-- Claim C5: for every input tensor, `Downsample.call` applies exactly the
convolution, then the normalization layer if and only if `norm_type` is
truthy (skipped when it is `None` or the empty string), then the
activation, in this order and nothing else. -/
theorem downsample_call_order (l : Downsample) (x : Tensor) :
    l.call x =
      l.activation
        (if pyTruthy l.norm_type then l.norm_layer (l.conv2d x) else l.conv2d x) ∧
    (l.norm_type = none → l.call x = l.activation (l.conv2d x)) ∧
    (l.norm_type = some "" → l.call x = l.activation (l.conv2d x)) ∧
    (∀ s, l.norm_type = some s → s ≠ "" →
      l.call x = l.activation (l.norm_layer (l.conv2d x))) := by
  refine ⟨?_, ?_, ?_, ?_⟩
  · by_cases h : pyTruthy l.norm_type <;> simp [Downsample.call, h]
  · intro h
    simp [Downsample.call, h]
  · intro h
    simp [Downsample.call, h, pyTruthy]
  · intro s hs hne
    simp [Downsample.call, hs, pyTruthy, bne_iff_ne, hne]

theorem downsample_call_order_witness :
    dsNone0.call img0 = dsNone0.activation (dsNone0.conv2d img0) ∧
    dsIN0.call img0 = dsIN0.activation (dsIN0.norm_layer (dsIN0.conv2d img0)) :=
  ⟨(downsample_call_order dsNone0 img0).2.1 rfl,
   (downsample_call_order dsIN0 img0).2.2.2 "instancenorm" rfl (by decide)⟩

/-- Claim C6: for every input tensor, `Upsample.call` applies exactly the
transposed convolution, then the normalization layer if and only if
`norm_type` is truthy, then dropout if and only if `apply_dropout` is
`True`, then the activation, in this order. -/
theorem upsample_call_order (l : Upsample) (x : Tensor) :
    l.call x =
      l.activation
        ((if l.apply_dropout then l.dropout else id)
          ((if pyTruthy l.norm_type then l.norm_layer else id)
            (l.conv2dtranspose x))) ∧
    (l.norm_type = none → l.apply_dropout = false →
      l.call x = l.activation (l.conv2dtranspose x)) ∧
    (∀ s, l.norm_type = some s → s ≠ "" → l.apply_dropout = true →
      l.call x = l.activation (l.dropout (l.norm_layer (l.conv2dtranspose x)))) := by
  refine ⟨?_, ?_, ?_⟩
  · by_cases h1 : pyTruthy l.norm_type <;> by_cases h2 : l.apply_dropout <;>
      simp [Upsample.call, h1, h2]
  · intro h1 h2
    simp [Upsample.call, h1, h2]
  · intro s hs hne hd
    simp [Upsample.call, hs, hd, pyTruthy, bne_iff_ne, hne]

theorem upsample_call_order_witness :
    upNone0.call img0 = upNone0.activation (upNone0.conv2dtranspose img0) ∧
    upIN0.call img0 =
      upIN0.activation
        (upIN0.dropout (upIN0.norm_layer (upIN0.conv2dtranspose img0))) :=
  ⟨(upsample_call_order upNone0 img0).2.1 rfl rfl,
   (upsample_call_order upIN0 img0).2.2 "instancenorm" rfl (by decide) rfl⟩

/-- Claim C1: for every input tensor, `ResNetGenerator.call` computes its
output by, in this order: reflection-padding the input by 3 on both spatial
dimensions, applying the three `Downsample` stages, the nine
`ResNetBlock`s, the two `Upsample` stages, reflection-padding by 3 again,
and `last_conv2d`, whose activation is `tanh`; since `tanh` is bounded,
every output value lies in `[-1, 1]`. -/
theorem resnet_generator_call_structure (g : ResNetGenerator) (x : Tensor) :
    g.call x =
      g.last_conv2d (tfPadReflect 3
        (g.upsample_2.call (g.upsample_1.call
          (g.resnetblock_9.call (g.resnetblock_8.call (g.resnetblock_7.call
            (g.resnetblock_6.call (g.resnetblock_5.call (g.resnetblock_4.call
              (g.resnetblock_3.call (g.resnetblock_2.call (g.resnetblock_1.call
                (g.downsample_3.call (g.downsample_2.call (g.downsample_1.call
                  (tfPadReflect 3 x)))))))))))))))) ∧
    ∀ bb i j c, |(g.call x).val bb i j c| ≤ 1 := by
  refine ⟨rfl, fun bb i j c => ?_⟩
  show |Real.tanh _| ≤ 1
  exact abs_tanh_le_one _

/-- Claim C2, counterexample: on an all-zero 256×256×3 input and the
default discriminator, the pipeline the claim states (four consecutive
`Downsample` stages, then padding, then the final convolution) produces a
28×28 map, while `Discriminator.call` produces a 30×30 map: the stated
ordering does not match the code, which zero-pads between the third and
fourth downsample stages and again before the final convolution. -/
theorem discriminator_claimed_order_counterexample :
    (Discriminator.claimedCall disc0 img0).hgt = 28 ∧
    (Discriminator.call disc0 img0).hgt = 30 ∧
    (Discriminator.claimedCall disc0 img0).hgt ≠
      (Discriminator.call disc0 img0).hgt := by
  refine ⟨by decide, by decide, by decide⟩

/-- Claim C2, amended: for every input tensor, `Discriminator.call`
computes three stride-2 `Downsample` stages, zero padding, a fourth
stride-1 valid `Downsample` stage, zero padding again, and a single final
convolution with 1 output filter; on a 256×256×3 input (with the default
`first_filters=64`, `size=4`) the result is a one-channel 30×30 spatial
map, not a scalar per image. -/
theorem discriminator_call_structure (W : DiscW) (v : ℕ → ℕ → ℕ → ℕ → ℝ) :
    (∀ y, (Discriminator.init 64 4 W).call y =
      (Discriminator.init 64 4 W).conv2d
        ((Discriminator.init 64 4 W).zeropadding2d_2
          ((Discriminator.init 64 4 W).downsample_4.call
            ((Discriminator.init 64 4 W).zeropadding2d_1
              ((Discriminator.init 64 4 W).downsample_3.call
                ((Discriminator.init 64 4 W).downsample_2.call
                  ((Discriminator.init 64 4 W).downsample_1.call y))))))) ∧
    ((Discriminator.init 64 4 W).call ⟨256, 256, 3, v⟩).hgt = 30 ∧
    ((Discriminator.init 64 4 W).call ⟨256, 256, 3, v⟩).wid = 30 ∧
    ((Discriminator.init 64 4 W).call ⟨256, 256, 3, v⟩).chn = 1 ∧
    1 < ((Discriminator.init 64 4 W).call ⟨256, 256, 3, v⟩).hgt := by
  refine ⟨fun y => rfl, ?_, ?_, ?_, ?_⟩ <;>
    simp [Discriminator.call, Discriminator.init, Downsample.call, mkConv2D,
      conv2dSame, zeroPadding2D, reluT, leakyReluT, samePadLo, samePadTotal]

/-- Claim C7: the pipeline has a fixed 256×256×3 tensor shape:
`INPUT_SHAPE` is the constant `(256, 256, 3)`, and for every input of that
shape the default generator (`first_filters=64`, `output_channels=3`)
returns an output of the same shape, with the intermediate spatial sizes
256 → 128 → 64 through the downsample stages, 64 through the residual
blocks, and 64 → 128 → 256 through the upsample stages; the named stages
tile `ResNetGenerator.call` exactly. -/
theorem generator_shape_pipeline (W : GenW) (v : ℕ → ℕ → ℕ → ℕ → ℝ) :
    INPUT_SHAPE = (256, 256, 3) ∧
    (genStageDs1 W v).hgt = 256 ∧ (genStageDs1 W v).wid = 256 ∧
    (genStageDs2 W v).hgt = 128 ∧ (genStageDs2 W v).wid = 128 ∧
    (genStageDs3 W v).hgt = 64 ∧ (genStageDs3 W v).wid = 64 ∧
    (genStageRes W v).hgt = 64 ∧ (genStageRes W v).wid = 64 ∧
    (genStageUp1 W v).hgt = 128 ∧ (genStageUp1 W v).wid = 128 ∧
    (genStageUp2 W v).hgt = 256 ∧ (genStageUp2 W v).wid = 256 ∧
    ((gen64 W).call (inputOf v)).hgt = 256 ∧
    ((gen64 W).call (inputOf v)).wid = 256 ∧
    ((gen64 W).call (inputOf v)).chn = 3 ∧
    (gen64 W).call (inputOf v) =
      (gen64 W).last_conv2d (tfPadReflect 3 (genStageUp2 W v)) := by
  refine ⟨rfl, ?_, ?_, ?_, ?_, ?_, ?_, ?_, ?_, ?_, ?_, ?_, ?_, ?_, ?_, ?_, rfl⟩ <;>
    simp [gen64, inputOf, INPUT_SHAPE, genStageDs1, genStageDs2, genStageDs3,
      genStageRes, genStageUp1, genStageUp2, ResNetGenerator.call,
      ResNetGenerator.init, ResNetGenerator.last_conv2d, Downsample.call,
      Upsample.call, ResNetBlock.call, mkResNetBlock, mkConv2D, conv2dSame,
      reluT, leakyReluT, tanhT, samePadLo, samePadTotal]

/-- Claim C8: for every string, `get_norm_layer` returns
`BatchNormalization` when its argument lower-cases to `"batchnorm"`,
`InstanceNormalization` when it lower-cases to `"instancenorm"`, and
otherwise raises a `ValueError` whose message is a fixed text followed by
the supplied value (so the message includes that value); no other outcome
is possible. -/
theorem get_norm_layer_cases (s : String) :
    (pyLower s = "batchnorm" → get_norm_layer s = .ok .batchNormalization) ∧
    (pyLower s = "instancenorm" →
      get_norm_layer s = .ok .instanceNormalization) ∧
    (pyLower s ≠ "batchnorm" → pyLower s ≠ "instancenorm" →
      get_norm_layer s = .error (.valueError (normTypeErrMsg s)) ∧
      ∃ t, normTypeErrMsg s = t ++ s) := by
  refine ⟨fun h => ?_, fun h => ?_, fun h1 h2 => ⟨?_, ⟨_, rfl⟩⟩⟩
  · simp [get_norm_layer, h]
  · simp [get_norm_layer, h]
  · simp [get_norm_layer, h1, h2]

theorem get_norm_layer_cases_witness :
    get_norm_layer "BatchNorm" = .ok .batchNormalization ∧
    get_norm_layer "foo" = .error (.valueError (normTypeErrMsg "foo")) :=
  ⟨(get_norm_layer_cases "BatchNorm").1 (by decide),
   ((get_norm_layer_cases "foo").2.2 (by decide) (by decide)).1⟩

/-- Claim C9 is a code bug.  The three recognized branches behave as
claimed: `"relu"` (case-insensitively) yields `ReLU`, `"lrelu"` yields
`LeakyReLU` with slope `0.2`, `"tanh"` yields the `tanh` function.  But for
any other string, such as `"sigmoid"`, the code raises
`NameError: name norm_type is not defined` — the fallthrough branch formats
`norm_type`, which is not in scope in `get_activation` — and never a
`ValueError` mentioning the supplied value. -/
theorem get_activation_divergence :
    get_activation "relu" = .ok .reLU ∧
    get_activation "LRelu" = .ok (.leakyReLU (1 / 5)) ∧
    get_activation "tanh" = .ok .tanhAct ∧
    get_activation "sigmoid" = .error (.nameError "norm_type") ∧
    ∀ msg, get_activation "sigmoid" ≠ .error (.valueError msg) := by
  refine ⟨by decide, by rfl, by decide, by decide, fun msg h => ?_⟩
  rw [(by decide :
    get_activation "sigmoid" = Except.error (PyError.nameError "norm_type"))] at h
  simp at h

/-- Claim C10: in both `Downsample.__init__` and `Upsample.__init__`, the
(transposed) convolution uses a bias exactly when normalization is
disabled: `use_bias` is the negation of the truthiness of `norm_type`, it
is `True` iff `norm_type` is `None` or otherwise falsy, and a normalization
layer exists exactly when `norm_type` is truthy (so `use_bias` is `False`
whenever one is present). -/
theorem use_bias_iff_no_norm (f k s : ℕ) (p : String) (nt : Option String)
    (a : String) (ad : Bool) (dcfg : DownsampleCfg) (ucfg : UpsampleCfg)
    (hd : Downsample.init f k s p nt a = .ok dcfg)
    (hu : Upsample.init f k s p nt ad a = .ok ucfg) :
    (dcfg.conv2d.use_bias = !pyTruthy nt ∧
     (dcfg.conv2d.use_bias = true ↔ pyTruthy nt = false) ∧
     dcfg.norm_layer.isSome = pyTruthy nt) ∧
    (ucfg.conv2dtranspose.use_bias = !pyTruthy nt ∧
     (ucfg.conv2dtranspose.use_bias = true ↔ pyTruthy nt = false) ∧
     ucfg.norm_layer.isSome = pyTruthy nt) := by
  unfold Downsample.init at hd
  unfold Upsample.init at hu
  cases hga : get_activation a with
  | error e =>
      rw [hga] at hd
      cases hnt : pyTruthy nt <;> rw [hnt] at hd <;> simp at hd
      cases hnl : get_norm_layer (nt.getD "") <;> rw [hnl] at hd <;> simp at hd
  | ok act =>
      rw [hga] at hd hu
      cases hnt : pyTruthy nt
      · rw [hnt] at hd hu
        simp at hd hu
        subst hd
        subst hu
        simp
      · rw [hnt] at hd hu
        cases hnl : get_norm_layer (nt.getD "") with
        | error e =>
            rw [hnl] at hd
            simp at hd
        | ok nl =>
            rw [hnl] at hd hu
            simp at hd hu
            subst hd
            subst hu
            simp

theorem use_bias_iff_no_norm_witness :
    dcfg0.conv2d.use_bias = !pyTruthy none ∧
    ucfg0.conv2dtranspose.use_bias = !pyTruthy none := by
  have h := use_bias_iff_no_norm 64 4 2 "same" none "lrelu" false dcfg0 ucfg0
    (by rfl) (by rfl)
  exact ⟨h.1.1, h.2.1⟩

end CycleGan
